import Mathlib

/-!
Verification of the reels2transcript utility scripts.

The repository is four Python command-line scripts
(`insta_caption_extractor.py`, `insta_media_downloader.py`,
`insta_login.py`, `vosk_transcribe.py`).  Each definition below is a
shallow embedding of a function of one of those scripts; the external
libraries they call (urllib, instaloader, vosk, wave, the OS) are
modelled at the call boundary by explicit parameters or environment
records.  Strings are modelled by `String`, except URL paths where the
character-level operations (split on a character, strip a trailing
character) are embedded over `List Char`.  Floating-point timestamps
are modelled by rationals.
-/

namespace Reels2Transcript

/-! ## Python string primitives used by the scripts -/

/-- Python `path.endswith('/')`: true iff the last character is `'/'`.
(`endswith` of the empty string is false, matching `getLast? [] = none`.) -/
def endsWithSlash (p : List Char) : Bool :=
  p.getLast? == some '/'

/-- Python `path.split('/')`: split on every `'/'`; the result is never
empty, and `"".split('/') == ['']`. -/
def pySplitSlash : List Char → List (List Char)
  | [] => [[]]
  | c :: rest =>
    match pySplitSlash rest with
    | [] => [[]]
    | h :: t => if c = '/' then [] :: h :: t else (c :: h) :: t

/-- Python `" ".join(xs)`. -/
def joinSpace : List String → String
  | [] => ""
  | [x] => x
  | x :: y :: xs => x ++ " " ++ joinSpace (y :: xs)

/-- Python `os.path.join(a, b)` for a relative second component. -/
def joinPath (a b : String) : String := a ++ "/" ++ b

theorem pySplitSlash_ne_nil (s : List Char) : pySplitSlash s ≠ [] := by
  cases s with
  | nil => simp [pySplitSlash]
  | cons c rest =>
    simp only [pySplitSlash]
    cases h : pySplitSlash rest with
    | nil => simp
    | cons h t =>
      by_cases hc : c = '/' <;> simp [hc]

theorem pySplitSlash_no_slash (s : List Char) (h : '/' ∉ s) :
    pySplitSlash s = [s] := by
  induction s with
  | nil => rfl
  | cons c rest ih =>
    have hc : c ≠ '/' := by
      intro hEq; exact h (hEq ▸ List.mem_cons_self c rest)
    have hrest : '/' ∉ rest := fun hm => h (List.mem_cons_of_mem _ hm)
    simp only [pySplitSlash, ih hrest]
    simp [hc]

theorem pySplitSlash_length_ge_two (xs ys : List Char) :
    2 ≤ (pySplitSlash (xs ++ '/' :: ys)).length := by
  induction xs with
  | nil =>
    simp only [List.nil_append, pySplitSlash]
    cases h : pySplitSlash ys with
    | nil => exact absurd h (pySplitSlash_ne_nil ys)
    | cons a t => simp
  | cons c rest ih =>
    simp only [List.cons_append, pySplitSlash]
    cases h : pySplitSlash (rest ++ '/' :: ys) with
    | nil => exact absurd h (pySplitSlash_ne_nil _)
    | cons a t =>
      rw [h] at ih
      simp only [List.length_cons] at ih
      show 2 ≤ (if c = '/' then [] :: a :: t else (c :: a) :: t).length
      by_cases hc : c = '/'
      · rw [if_pos hc]; simp only [List.length_cons]; omega
      · rw [if_neg hc]; simp only [List.length_cons]; omega

theorem pySplitSlash_getLastD (xs ys : List Char) (h : '/' ∉ ys) :
    (pySplitSlash (xs ++ '/' :: ys)).getLastD [] = ys := by
  induction xs with
  | nil =>
    simp only [List.nil_append, pySplitSlash, pySplitSlash_no_slash ys h]
    rfl
  | cons c rest ih =>
    simp only [List.cons_append, pySplitSlash]
    cases hsplit : pySplitSlash (rest ++ '/' :: ys) with
    | nil => exact absurd hsplit (pySplitSlash_ne_nil _)
    | cons a t =>
      rw [hsplit] at ih
      have hlen := pySplitSlash_length_ge_two rest ys
      rw [hsplit] at hlen
      have ht : t ≠ [] := by
        intro hnil
        rw [hnil] at hlen
        simp at hlen
      by_cases hc : c = '/'
      · simpa [hc, List.getLastD_cons] using ih
      · simp only [hc, if_false]
        rw [List.getLastD_cons] at ih ⊢
        obtain ⟨b, u, rfl⟩ := List.exists_cons_of_ne_nil ht
        rw [List.getLastD_cons] at ih ⊢
        exact ih

theorem endsWithSlash_false_of_no_slash_suffix (xs ys : List Char)
    (hne : ys ≠ []) (h : '/' ∉ ys) : endsWithSlash (xs ++ ys) = false := by
  unfold endsWithSlash
  have hlast : (xs ++ ys).getLast? = ys.getLast? := by
    rw [List.getLast?_append]
    cases hy : ys.getLast? with
    | none => exact absurd (List.getLast?_eq_none_iff.mp hy) hne
    | some a => rfl
  rw [hlast]
  cases hy : ys.getLast? with
  | none => rfl
  | some a =>
    have ha : a ∈ ys := List.mem_of_getLast?_eq_some hy
    have : a ≠ '/' := fun hEq => h (hEq ▸ ha)
    simpa using this

end Reels2Transcript

namespace InstaCaptionExtractor

open Reels2Transcript

/-- `extract_shortcode_from_url`, `insta_caption_extractor.py` lines 16–32.
The call to `urllib.parse.urlparse` (an external library) is modelled by
its result: the function receives the URL's path component.  Body: strip
one trailing `'/'` if present, split on `'/'`, return the last part
(`parts[-1]`; the split is never empty). -/
def extract_shortcode_from_url (path : List Char) : List Char :=
  let stripped := if endsWithSlash path then path.dropLast else path
  (pySplitSlash stripped).getLastD []

end InstaCaptionExtractor

namespace InstaMediaDownloader

open Reels2Transcript

/-- `extract_shortcode_from_url`, `insta_media_downloader.py` lines 18–34:
a verbatim second copy of the function in `insta_caption_extractor.py`. -/
def extract_shortcode_from_url (path : List Char) : List Char :=
  let stripped := if endsWithSlash path then path.dropLast else path
  (pySplitSlash stripped).getLastD []

end InstaMediaDownloader

namespace Reels2Transcript

theorem extract_copies_agree (p : List Char) :
    InstaMediaDownloader.extract_shortcode_from_url p =
      InstaCaptionExtractor.extract_shortcode_from_url p := rfl

theorem extract_no_trailing (xs seg : List Char) (hne : seg ≠ [])
    (hns : '/' ∉ seg) :
    InstaCaptionExtractor.extract_shortcode_from_url (xs ++ '/' :: seg) = seg := by
  unfold InstaCaptionExtractor.extract_shortcode_from_url
  have hend : endsWithSlash (xs ++ '/' :: seg) = false := by
    have : xs ++ '/' :: seg = (xs ++ ['/']) ++ seg := by simp
    rw [this]
    exact endsWithSlash_false_of_no_slash_suffix _ _ hne hns
  simp only [hend, if_false]
  exact pySplitSlash_getLastD xs seg hns

theorem extract_one_trailing (xs seg : List Char) (hns : '/' ∉ seg) :
    InstaCaptionExtractor.extract_shortcode_from_url (xs ++ '/' :: seg ++ ['/']) = seg := by
  unfold InstaCaptionExtractor.extract_shortcode_from_url
  have hend : endsWithSlash (xs ++ '/' :: seg ++ ['/']) = true := by
    unfold endsWithSlash
    rw [List.getLast?_concat]
    rfl
  have hdrop : (xs ++ '/' :: seg ++ ['/']).dropLast = xs ++ '/' :: seg :=
    List.dropLast_concat
  simp only [hend, if_true, hdrop]
  exact pySplitSlash_getLastD xs seg hns

theorem extract_bare (seg : List Char) (hne : seg ≠ []) (hns : '/' ∉ seg) :
    InstaCaptionExtractor.extract_shortcode_from_url seg = seg := by
  unfold InstaCaptionExtractor.extract_shortcode_from_url
  have hend : endsWithSlash seg = false := by
    have : seg = [] ++ seg := by simp
    rw [this]
    exact endsWithSlash_false_of_no_slash_suffix [] seg hne hns
  simp only [hend, if_false]
  show (pySplitSlash seg).getLastD [] = seg
  rw [pySplitSlash_no_slash seg hns]
  rfl

theorem extract_bare_trailing (seg : List Char) (hns : '/' ∉ seg) :
    InstaCaptionExtractor.extract_shortcode_from_url (seg ++ ['/']) = seg := by
  unfold InstaCaptionExtractor.extract_shortcode_from_url
  have hend : endsWithSlash (seg ++ ['/']) = true := by
    unfold endsWithSlash
    rw [List.getLast?_concat]
    rfl
  have hdrop : (seg ++ ['/']).dropLast = seg := List.dropLast_concat
  simp only [hend, if_true, hdrop, pySplitSlash_no_slash seg hns]
  rfl

/-- C1: for every URL whose path has a non-empty final `'/'`-delimited
segment `seg` (no `'/'` inside it) and at most one trailing slash,
`extract_shortcode_from_url` returns exactly `seg`, in all four path
shapes (with or without a leading directory part, with or without the
single trailing slash), and the copy in `insta_media_downloader.py`
agrees with the copy in `insta_caption_extractor.py` on every input. -/
theorem extract_shortcode_returns_final_segment (xs seg : List Char)
    (hne : seg ≠ []) (hns : '/' ∉ seg) :
    InstaCaptionExtractor.extract_shortcode_from_url (xs ++ '/' :: seg) = seg ∧
    InstaCaptionExtractor.extract_shortcode_from_url (xs ++ '/' :: seg ++ ['/']) = seg ∧
    InstaCaptionExtractor.extract_shortcode_from_url seg = seg ∧
    InstaCaptionExtractor.extract_shortcode_from_url (seg ++ ['/']) = seg ∧
    (∀ p : List Char, InstaMediaDownloader.extract_shortcode_from_url p =
      InstaCaptionExtractor.extract_shortcode_from_url p) :=
  ⟨extract_no_trailing xs seg hne hns, extract_one_trailing xs seg hns,
   extract_bare seg hne hns, extract_bare_trailing seg hns,
   extract_copies_agree⟩

/-- C1 witness: the spec's own example, path `/reel/ABC123/` of
`https://instagram.com/reel/ABC123/`, yields `ABC123`. -/
theorem extract_shortcode_returns_final_segment_witness :
    ("ABC123".toList ≠ [] ∧ '/' ∉ "ABC123".toList) ∧
    InstaCaptionExtractor.extract_shortcode_from_url
      ("/reel".toList ++ '/' :: "ABC123".toList ++ ['/']) = "ABC123".toList :=
  ⟨⟨by decide, by decide⟩,
   (extract_shortcode_returns_final_segment "/reel".toList "ABC123".toList
     (by decide) (by decide)).2.1⟩

end Reels2Transcript

namespace VoskTranscribe

open Reels2Transcript

/-- One word-level segment of a recognizer result (`vosk_transcribe.py`):
a JSON object with keys `word`, `start`, `end`, `conf`.  Each key is
modelled as optional, since the sort key `x.get("start", 0)` on line 158
explicitly defends against a missing `start`.  Timestamps (floats in the
engine's JSON) are modelled as rationals.  The JSON key `end` is named
`endTime` (reserved word). -/
structure WordSeg where
  word : String
  start : Option ℚ
  endTime : Option ℚ
  conf : Option ℚ
deriving DecidableEq

/-- The sort key of line 158: `lambda x: x.get("start", 0)`. -/
def startKey (s : WordSeg) : ℚ := s.start.getD 0

/-- Comparison used by the sort on line 158: non-decreasing in `startKey`. -/
def segLE (a b : WordSeg) : Prop := startKey a ≤ startKey b

instance : DecidableRel segLE := fun a b =>
  inferInstanceAs (Decidable (startKey a ≤ startKey b))

instance : IsTotal WordSeg segLE :=
  ⟨fun a b => le_total (startKey a) (startKey b)⟩

instance : IsTrans WordSeg segLE :=
  ⟨fun _ _ _ h1 h2 => le_trans h1 h2⟩

/-- `full_result["result"].sort(key=lambda x: x.get("start", 0))`
(line 158).  Python's `list.sort` is a stable comparison sort; it is
modelled by a stable sort with respect to `segLE`. -/
def sortSegments (l : List WordSeg) : List WordSeg := List.insertionSort segLE l

/-- Non-decreasing in the actual `start` values: whenever both segments
carry a `start`, the first is at most the second. -/
def startLE (a b : WordSeg) : Prop := ∀ x ∈ a.start, ∀ y ∈ b.start, x ≤ y

theorem segLE_imp_startLE {a b : WordSeg} (h : segLE a b) : startLE a b := by
  intro x hx y hy
  have hax : a.start = some x := Option.mem_def.mp hx
  have hby : b.start = some y := Option.mem_def.mp hy
  unfold segLE startKey at h
  rw [hax, hby] at h
  simpa using h

/-- One element of the `results` list accumulated in `transcribe_audio`
(lines 129–140): a recognizer JSON result, which may or may not carry a
`text` key and a `result` (word-segment array) key. -/
structure ChunkResult where
  text : Option String
  result : Option (List WordSeg)
deriving DecidableEq

/-- The list comprehension of line 147:
`[r.get("text", "") for r in results if "text" in r]`. -/
def capturedTexts (rs : List ChunkResult) : List String :=
  (rs.filter (fun r => r.text.isSome)).map (fun r => r.text.getD "")

/-- Line 147: `" ".join([r.get("text", "") for r in results if "text" in r])`. -/
def combined_text (rs : List ChunkResult) : String :=
  joinSpace (capturedTexts rs)

/-- Lines 152–154: `for r in results: if "result" in r:
full_result["result"].extend(r["result"])`. -/
def combined_segments (rs : List ChunkResult) : List WordSeg :=
  rs.foldl (fun acc r => acc ++ r.result.getD []) []

/-- The combined transcription record built on lines 146–158 (the timing
metadata of lines 161–168, irrelevant to the combination logic, is not
modelled). -/
structure FullResult where
  text : String
  result : List WordSeg
deriving DecidableEq

/-- Lines 146–158 of `transcribe_audio`: build the combined text, extend
with all per-chunk word segments, and sort by start time when the
combined list is non-empty (`if full_result["result"]:`). -/
def combine_full_result (rs : List ChunkResult) : FullResult :=
  let segs := combined_segments rs
  { text := combined_text rs
    result := if segs.isEmpty then segs else sortSegments segs }

/-- C2: whenever the result-combination stage produces a non-empty
`result` list, that list is non-decreasing in the segments' `start`
values. -/
theorem combined_result_sorted_by_start (rs : List ChunkResult)
    (h : (combine_full_result rs).result ≠ []) :
    List.Pairwise startLE (combine_full_result rs).result := by
  have hres : (combine_full_result rs).result =
      if (combined_segments rs).isEmpty then combined_segments rs
      else sortSegments (combined_segments rs) := rfl
  rw [hres]
  by_cases he : (combined_segments rs).isEmpty
  · rw [if_pos he]
    rw [List.isEmpty_iff] at he
    rw [he]
    exact List.Pairwise.nil
  · rw [if_neg he]
    exact List.Pairwise.imp (fun hab => segLE_imp_startLE hab)
      (List.sorted_insertionSort segLE _)

/-- C2 witness: two chunks whose segments arrive out of order produce a
non-empty combined list that is sorted by start value. -/
def chunkSortDemo : List ChunkResult :=
  [{ text := some "b a", result := some
      [{ word := "b", start := some 2, endTime := some 3, conf := some 1 },
       { word := "a", start := some 1, endTime := some 2, conf := some 1 }] },
   { text := some "c", result := some
      [{ word := "c", start := some 5, endTime := some 6, conf := some 1 }] }]

theorem combined_result_sorted_by_start_witness :
    (combine_full_result chunkSortDemo).result ≠ [] ∧
    List.Pairwise startLE (combine_full_result chunkSortDemo).result :=
  ⟨by decide, combined_result_sorted_by_start chunkSortDemo (by decide)⟩

/-- C10: the sort of line 158 is total on every list of segment records:
it always yields a permutation of its input that is non-decreasing in
the key `x.get("start", 0)`, and a segment lacking a `start` key has key
`0` (hence is ordered as if its start were `0`, before all positive
starts). -/
theorem sort_segments_total_missing_start_zero (l : List WordSeg) :
    List.Perm (sortSegments l) l ∧ List.Pairwise segLE (sortSegments l) ∧
    (∀ w e c, startKey { word := w, start := none, endTime := e, conf := c } = 0) :=
  ⟨List.perm_insertionSort segLE l, List.sorted_insertionSort segLE l,
   fun _ _ _ => rfl⟩

end VoskTranscribe

namespace VoskTranscribe

open Reels2Transcript

/-- Spec-side definition, for comparison with the code: the spec's words
"Concatenate all captured texts (space-joined, skipping empty ones)" —
texts of chunks that carry a `text` key, with empty texts dropped before
joining. -/
def combined_text_spec (rs : List ChunkResult) : String :=
  joinSpace ((rs.filterMap ChunkResult.text).filter (fun t => t ≠ ""))

/-- A run in which the middle chunk is silence: the recognizer emitted
`{"text": ""}` for it. -/
def chunkTextDemo : List ChunkResult :=
  [{ text := some "hello", result := none },
   { text := some "", result := none },
   { text := some "world", result := none }]

/-- C3 counterexample: line 147 filters only on the *presence* of the
`text` key, not on emptiness, so a chunk with an empty text still
contributes a join separator and the combined text acquires two
consecutive spaces — it differs from the skip-empty join the claim
describes. -/
theorem combined_text_empty_not_skipped_counterexample :
    combined_text chunkTextDemo = "hello  world" ∧
    combined_text_spec chunkTextDemo = "hello world" ∧
    combined_text chunkTextDemo ≠ combined_text_spec chunkTextDemo := by
  refine ⟨by decide, by decide, by decide⟩

theorem capturedTexts_eq_filterMap (rs : List ChunkResult) :
    capturedTexts rs = rs.filterMap ChunkResult.text := by
  induction rs with
  | nil => rfl
  | cons r rest ih =>
    unfold capturedTexts at ih ⊢
    cases hr : r.text with
    | none => simp [List.filter_cons, List.filterMap_cons, hr, ih]
    | some t => simp [List.filter_cons, List.filterMap_cons, hr, ih]

/-- C3 amended: the combined transcript string equals the space-joined
concatenation of the texts of exactly those chunks that carry a `text`
key, with empty texts *included* — an empty text contributes a join
separator, so consecutive spaces can occur. -/
theorem combined_text_joins_all_captured (rs : List ChunkResult) :
    combined_text rs = joinSpace (rs.filterMap ChunkResult.text) := by
  unfold combined_text
  rw [capturedTexts_eq_filterMap]

/-- Parameters reported by `wave.open` for a WAV file:
`getnchannels`, `getsampwidth`, `getcomptype`. -/
structure WavParams where
  nchannels : Nat
  sampwidth : Nat
  comptype : String

/-- Outcome of `wave.open(audio_path, "rb")`: either a readable file
with its parameters, or an exception (caught on line 44). -/
inductive WavOpen
  | ok (p : WavParams)
  | raises (msg : String)

/-- Environment of a `transcribe_audio` call: the importability of the
`vosk` module, the filesystem (`os.path.exists`), and the `wave`
library.  (The module's own top-level `from vosk import ...` means any
run that reaches `transcribe_audio` has `voskImportable = true`.) -/
structure TranscribeEnv where
  voskImportable : Bool
  pathExists : String → Bool
  wavOpen : String → WavOpen

/-- `check_dependencies`, lines 12–23. -/
def check_dependencies (env : TranscribeEnv) : Bool × String :=
  if env.voskImportable then (true, "")
  else (false, "Vosk module not found. Please install it with 'pip install vosk'")

/-- `check_audio_file`, lines 25–45: existence first, then WAV format
(mono, 16-bit, uncompressed PCM), with `wave.open` failures caught. -/
def check_audio_file (env : TranscribeEnv) (audio_path : String) : Bool × String :=
  if env.pathExists audio_path = false then
    (false, "Audio file " ++ audio_path ++ " not found")
  else
    match env.wavOpen audio_path with
    | .raises m => (false, "Invalid audio file: " ++ m)
    | .ok p =>
      if p.nchannels ≠ 1 ∨ p.sampwidth ≠ 2 ∨ p.comptype ≠ "NONE" then
        (false, "Audio file must be WAV format mono PCM")
      else (true, "")

/-- Line 60 of `check_model`. -/
def required_files : List String := ["am/final.mdl", "conf/mfcc.conf", "conf/model.conf"]

/-- The loop of lines 61–63 over `required_files`. -/
def check_model_files (env : TranscribeEnv) (model_path : String) :
    List String → Bool × String
  | [] => (true, "")
  | f :: fs =>
    if env.pathExists (joinPath model_path f) = false then
      (false, "Invalid model: " ++ f ++ " not found in model directory")
    else check_model_files env model_path fs

/-- `check_model`, lines 47–65. -/
def check_model (env : TranscribeEnv) (model_path : String) : Bool × String :=
  if env.pathExists model_path = false then
    (false, "Model " ++ model_path ++ " not found")
  else check_model_files env model_path required_files

/-- How far into `transcribe_audio` (lines 79–102) control gets:
one of the three pre-check early returns, or `processing` — the point
where the `try` block starts and `Model(model_path)` and the
`KaldiRecognizer` are invoked. -/
inductive TranscribeStage
  | dependencyError (error : String)
  | audioFileError (error : String)
  | modelError (error : String)
  | processing
deriving DecidableEq

/-- The precondition cascade of `transcribe_audio`, lines 79–102. -/
def transcribe_audio_entry (env : TranscribeEnv) (audio_path model_path : String) :
    TranscribeStage :=
  let deps := check_dependencies env
  if deps.1 = false then .dependencyError deps.2
  else
    let audio := check_audio_file env audio_path
    if audio.1 = false then .audioFileError audio.2
    else
      let model := check_model env model_path
      if model.1 = false then .modelError model.2
      else .processing

/-- The `error_type` field of the record each early return produces
(lines 82, 87, 92); `none` when processing proceeds. -/
def error_type : TranscribeStage → Option String
  | .dependencyError _ => some "DEPENDENCY_ERROR"
  | .audioFileError _ => some "AUDIO_FILE_ERROR"
  | .modelError _ => some "MODEL_ERROR"
  | .processing => none

/-- C5: a non-existent audio path makes `transcribe_audio` return the
`AUDIO_FILE_ERROR` record before the speech model is ever reached. -/
theorem missing_audio_gives_audio_file_error (env : TranscribeEnv)
    (audio_path model_path : String)
    (hdeps : env.voskImportable = true)
    (haudio : env.pathExists audio_path = false) :
    error_type (transcribe_audio_entry env audio_path model_path) =
      some "AUDIO_FILE_ERROR" ∧
    transcribe_audio_entry env audio_path model_path ≠ .processing := by
  have h : transcribe_audio_entry env audio_path model_path =
      .audioFileError ("Audio file " ++ audio_path ++ " not found") := by
    unfold transcribe_audio_entry check_dependencies check_audio_file
    simp [hdeps, haudio]
  rw [h]
  exact ⟨rfl, by simp⟩

/-- Concrete environment: `vosk` importable, only `audio.wav` exists,
and it is a valid mono 16-bit PCM WAV. -/
def envDemo : TranscribeEnv :=
  { voskImportable := true
    pathExists := fun s => s == "audio.wav"
    wavOpen := fun _ => .ok { nchannels := 1, sampwidth := 2, comptype := "NONE" } }

theorem missing_audio_gives_audio_file_error_witness :
    (envDemo.voskImportable = true ∧ envDemo.pathExists "missing.wav" = false) ∧
    (error_type (transcribe_audio_entry envDemo "missing.wav" "model") =
       some "AUDIO_FILE_ERROR" ∧
     transcribe_audio_entry envDemo "missing.wav" "model" ≠ .processing) :=
  ⟨⟨rfl, by decide⟩,
   missing_audio_gives_audio_file_error envDemo "missing.wav" "model" rfl (by decide)⟩

/-- C6: with the dependency importable and a valid, existing audio file,
a non-existent model path makes `transcribe_audio` return the
`MODEL_ERROR` record before any attempt to load the model. -/
theorem missing_model_gives_model_error (env : TranscribeEnv)
    (audio_path model_path : String) (p : WavParams)
    (hdeps : env.voskImportable = true)
    (haudio : env.pathExists audio_path = true)
    (hwav : env.wavOpen audio_path = .ok p)
    (hch : p.nchannels = 1) (hsw : p.sampwidth = 2) (hct : p.comptype = "NONE")
    (hmodel : env.pathExists model_path = false) :
    error_type (transcribe_audio_entry env audio_path model_path) =
      some "MODEL_ERROR" ∧
    transcribe_audio_entry env audio_path model_path ≠ .processing := by
  have h : transcribe_audio_entry env audio_path model_path =
      .modelError ("Model " ++ model_path ++ " not found") := by
    unfold transcribe_audio_entry check_dependencies check_audio_file check_model
    simp [hdeps, haudio, hwav, hch, hsw, hct, hmodel]
  rw [h]
  exact ⟨rfl, by simp⟩

theorem missing_model_gives_model_error_witness :
    (envDemo.voskImportable = true ∧ envDemo.pathExists "audio.wav" = true ∧
     envDemo.wavOpen "audio.wav" = .ok { nchannels := 1, sampwidth := 2, comptype := "NONE" } ∧
     envDemo.pathExists "missing-model" = false) ∧
    (error_type (transcribe_audio_entry envDemo "audio.wav" "missing-model") =
       some "MODEL_ERROR" ∧
     transcribe_audio_entry envDemo "audio.wav" "missing-model" ≠ .processing) :=
  ⟨⟨rfl, by decide, rfl, by decide⟩,
   missing_model_gives_model_error envDemo "audio.wav" "missing-model"
     { nchannels := 1, sampwidth := 2, comptype := "NONE" }
     rfl (by decide) rfl rfl rfl rfl (by decide)⟩

end VoskTranscribe

namespace Reels2Transcript

/-- The fields of an `instaloader.Post` read by the scripts. -/
structure PostData where
  caption : Option String
  owner_username : String
  likes : Int
  comments : Int
  date_iso : String
  is_video : Bool

/-- Python `post.caption if post.caption else "No caption available"`:
the fallback fires when the caption is `None` or empty (both falsy). -/
def captionOrDefault : Option String → String
  | none => "No caption available"
  | some c => if c = "" then "No caption available" else c

/-- Python `s.endswith(pat)`, embedded over the character lists. -/
def pyEndsWith (s pat : String) : Bool :=
  List.isSuffixOf pat.toList s.toList

end Reels2Transcript

namespace InstaMediaDownloader

open Reels2Transcript

/-- The result record of `download_instagram_media`
(`insta_media_downloader.py` lines 101–151); the extra metadata fields
of the success record (username, likes, ...) carry no logic and are not
modelled. -/
structure MediaResult where
  success : Bool
  error : Option String
  media_path : Option String
  caption : Option String
deriving DecidableEq

/-- The loop of lines 95–99: the first entry of the temp directory whose
name ends in `.mp4`, joined to the directory, else `None`. -/
def find_video_file (temp_dir : String) : List String → Option String
  | [] => none
  | f :: fs =>
    if pyEndsWith f ".mp4" then some (joinPath temp_dir f)
    else find_video_file temp_dir fs

/-- Lines 90–129 of `download_instagram_media`: the
`tempfile.TemporaryDirectory()` block.  The filesystem is modelled as
the list `fsys` of existing directories; entering the `with` block
creates `temp_dir`, leaving it (on *every* exit path, return included —
the context manager's guarantee) removes it.  `entries` is what
`os.listdir(temp_dir)` reports after `loader.download_post`. -/
def download_post_block (fsys : List String) (temp_dir : String)
    (entries : List String) (shortcode output_dir : String) (post : PostData) :
    MediaResult × List String :=
  let fsys1 := temp_dir :: fsys
  let res : MediaResult :=
    match find_video_file temp_dir entries with
    | none =>
      { success := false
        error := some "No video file found in the downloaded content"
        media_path := none
        caption := none }
    | some _vf =>
      { success := true
        error := none
        media_path := some (joinPath output_dir ("reel_" ++ shortcode ++ ".mp4"))
        caption := some (captionOrDefault post.caption) }
  (res, fsys1.erase temp_dir)

theorem find_video_file_none (temp_dir : String) (entries : List String)
    (h : ∀ f ∈ entries, pyEndsWith f ".mp4" = false) :
    find_video_file temp_dir entries = none := by
  induction entries with
  | nil => rfl
  | cons f fs ih =>
    have hf : pyEndsWith f ".mp4" = false := h f (List.mem_cons_self f fs)
    show (if pyEndsWith f ".mp4" then some (joinPath temp_dir f)
          else find_video_file temp_dir fs) = none
    rw [hf]
    show find_video_file temp_dir fs = none
    exact ih (fun g hg => h g (List.mem_cons_of_mem f hg))

/-- C7: when the downloaded bundle holds no `.mp4` file, the block
returns the failure record with `media_path` and `caption` null, and no
residual temporary directory remains: the filesystem after the block is
exactly the one before it. -/
theorem no_video_failure_and_cleanup (fsys : List String) (temp_dir : String)
    (entries : List String) (shortcode output_dir : String) (post : PostData)
    (hmp4 : ∀ f ∈ entries, pyEndsWith f ".mp4" = false)
    (hfresh : temp_dir ∉ fsys) :
    (download_post_block fsys temp_dir entries shortcode output_dir post).1 =
      { success := false
        error := some "No video file found in the downloaded content"
        media_path := none
        caption := none } ∧
    temp_dir ∉ (download_post_block fsys temp_dir entries shortcode output_dir post).2 ∧
    (download_post_block fsys temp_dir entries shortcode output_dir post).2 = fsys := by
  have hfind := find_video_file_none temp_dir entries hmp4
  have herase : (temp_dir :: fsys).erase temp_dir = fsys :=
    List.erase_cons_head temp_dir fsys
  have hstep : download_post_block fsys temp_dir entries shortcode output_dir post =
      ((match find_video_file temp_dir entries with
        | none =>
          ({ success := false
             error := some "No video file found in the downloaded content"
             media_path := none
             caption := none } : MediaResult)
        | some _vf =>
          { success := true
            error := none
            media_path := some (joinPath output_dir ("reel_" ++ shortcode ++ ".mp4"))
            caption := some (captionOrDefault post.caption) }),
       (temp_dir :: fsys).erase temp_dir) := rfl
  rw [hstep, hfind, herase]
  exact ⟨rfl, hfresh, rfl⟩

theorem no_video_failure_and_cleanup_witness :
    ((∀ f ∈ ["photo.jpg", "meta.json.xz"], pyEndsWith f ".mp4" = false) ∧
      "/tmp/dl-xyz" ∉ ["/tmp", "/home"]) ∧
    ((download_post_block ["/tmp", "/home"] "/tmp/dl-xyz"
        ["photo.jpg", "meta.json.xz"] "ABC123" "/out"
        { caption := none, owner_username := "u", likes := 0, comments := 0,
          date_iso := "2025-01-01T00:00:00", is_video := false }).1 =
      { success := false
        error := some "No video file found in the downloaded content"
        media_path := none
        caption := none } ∧
     "/tmp/dl-xyz" ∉ (download_post_block ["/tmp", "/home"] "/tmp/dl-xyz"
        ["photo.jpg", "meta.json.xz"] "ABC123" "/out"
        { caption := none, owner_username := "u", likes := 0, comments := 0,
          date_iso := "2025-01-01T00:00:00", is_video := false }).2 ∧
     (download_post_block ["/tmp", "/home"] "/tmp/dl-xyz"
        ["photo.jpg", "meta.json.xz"] "ABC123" "/out"
        { caption := none, owner_username := "u", likes := 0, comments := 0,
          date_iso := "2025-01-01T00:00:00", is_video := false }).2 = ["/tmp", "/home"]) :=
  ⟨⟨by decide, by decide⟩,
   no_video_failure_and_cleanup ["/tmp", "/home"] "/tmp/dl-xyz"
     ["photo.jpg", "meta.json.xz"] "ABC123" "/out"
     { caption := none, owner_username := "u", likes := 0, comments := 0,
       date_iso := "2025-01-01T00:00:00", is_video := false }
     (by decide) (by decide)⟩

end InstaMediaDownloader

namespace InstaCaptionExtractor

open Reels2Transcript

/-- What the body of the outer `try` of `get_post_caption`
(`insta_caption_extractor.py` lines 44–95) does: it either builds the
success record from the fetched post, or raises one of the exception
classes handled on lines 97–114.  (Exceptions inside the session-loading
sub-`try` of lines 61–71 are swallowed there and never reach the outer
handlers.) -/
inductive FetchOutcome
  | success (post : PostData)
  | connectionExc (msg : String)
  | loginRequiredExc (msg : String)
  | otherExc (msg : String)

/-- The result record of `get_post_caption` (lines 84–114). -/
structure CaptionResult where
  success : Bool
  caption : Option String
  username : Option String
  likes : Option Int
  comments : Option Int
  date : Option String
  is_video : Option Bool
  shortcode : Option (List Char)
  error : Option String

/-- `get_post_caption`, lines 44–114: every outcome of the body is
converted to a result record — the function is total over outcomes, so
nothing raises past its boundary. -/
def get_post_caption (url : List Char) (outcome : FetchOutcome) : CaptionResult :=
  match outcome with
  | .success post =>
    { success := true
      caption := some (captionOrDefault post.caption)
      username := some post.owner_username
      likes := some post.likes
      comments := some post.comments
      date := some post.date_iso
      is_video := some post.is_video
      shortcode := some (extract_shortcode_from_url url)
      error := none }
  | .connectionExc m =>
    { success := false
      caption := some "Failed to extract caption"
      username := none, likes := none, comments := none
      date := none, is_video := none, shortcode := none
      error := some ("Connection error: " ++ m ++
        ". Instagram may be rate-limiting requests.") }
  | .loginRequiredExc m =>
    { success := false
      caption := some "Failed to extract caption"
      username := none, likes := none, comments := none
      date := none, is_video := none, shortcode := none
      error := some ("Login required: " ++ m ++
        ". This content may require authentication.") }
  | .otherExc m =>
    { success := false
      caption := some "Failed to extract caption"
      username := none, likes := none, comments := none
      date := none, is_video := none, shortcode := none
      error := some m }

/-- C8: `get_post_caption` converts every outcome of its body into a
structured record — `success` is true exactly on a fetched post, and
each of the three exception classes yields `success = false` with its
own error classification. -/
theorem get_post_caption_never_raises (url : List Char) (m : String) :
    (∀ o : FetchOutcome,
      (get_post_caption url o).success = true ↔ ∃ p, o = FetchOutcome.success p) ∧
    ((get_post_caption url (.connectionExc m)).success = false ∧
      (get_post_caption url (.connectionExc m)).error =
        some ("Connection error: " ++ m ++
          ". Instagram may be rate-limiting requests.")) ∧
    ((get_post_caption url (.loginRequiredExc m)).success = false ∧
      (get_post_caption url (.loginRequiredExc m)).error =
        some ("Login required: " ++ m ++
          ". This content may require authentication.")) ∧
    ((get_post_caption url (.otherExc m)).success = false ∧
      (get_post_caption url (.otherExc m)).error = some m) := by
  refine ⟨fun o => ?_, ⟨rfl, rfl⟩, ⟨rfl, rfl⟩, ⟨rfl, rfl⟩⟩
  cases o with
  | success p => simp [get_post_caption]
  | connectionExc m2 => simp [get_post_caption]
  | loginRequiredExc m2 => simp [get_post_caption]
  | otherExc m2 => simp [get_post_caption]

end InstaCaptionExtractor

namespace InstaLogin

/-- `insta_login.py` line 103: the session file path under the user's
home directory. -/
def sessionFilePath (home session_name : String) : String :=
  home ++ "/.instaloader/session-" ++ session_name

/-- What `loader.load_session_from_file` followed by
`loader.test_login()` (lines 114–117) does when the file exists: raise,
or report the logged-in username (possibly `None`). -/
inductive SessionProbe
  | loadRaises (msg : String)
  | testLogin (username : Option String)

/-- Environment of a `check_session` call: the filesystem and the
library's session machinery. -/
structure SessionEnv where
  pathExists : String → Bool
  probe : SessionProbe

/-- `check_session`, `insta_login.py` lines 91–128: a missing session
file returns `False` at line 106–108; otherwise the session is loaded
and verified, with any exception caught on lines 126–128 and converted
to `False`.  Totality of this function embeds the fact that nothing
raises past the `try`/`except`. -/
def check_session (env : SessionEnv) (home session_name : String) : Bool :=
  let session_file := sessionFilePath home session_name
  if env.pathExists session_file = false then false
  else
    match env.probe with
    | .loadRaises _ => false
    | .testLogin u =>
      match u with
      | some s => if s = "" then false else true
      | none => false

/-- C9: a session name whose session file does not exist makes
`check_session` report `False`. -/
theorem check_session_missing_file_reports_false (env : SessionEnv)
    (home session_name : String)
    (h : env.pathExists (sessionFilePath home session_name) = false) :
    check_session env home session_name = false := by
  unfold check_session
  simp [h]

theorem check_session_missing_file_reports_false_witness :
    (SessionEnv.pathExists
        { pathExists := fun _ => false, probe := .testLogin (some "user") }
        (sessionFilePath "/root" "default") = false) ∧
    check_session { pathExists := fun _ => false, probe := .testLogin (some "user") }
      "/root" "default" = false :=
  ⟨rfl, check_session_missing_file_reports_false
    { pathExists := fun _ => false, probe := .testLogin (some "user") }
    "/root" "default" rfl⟩

end InstaLogin

namespace Reels2Transcript

/-! ## The `__main__` argument handling of the three JSON-emitting scripts -/

/-- What the script writes to stdout when it exits early. -/
inductive StdoutPayload
  | jsonWithSuccess (success : Bool)
  | usageTextNoJson
deriving DecidableEq

/-- An early process exit: code and stdout payload. -/
structure CliExit where
  code : Nat
  payload : StdoutPayload
deriving DecidableEq

/-- `insta_caption_extractor.py` lines 116–120: with `sys.argv` shorter
than 2 (no URL), print `{"success": false, "error": "No URL provided"}`
and `sys.exit(1)`; otherwise (`none`) proceed to `get_post_caption`. -/
def caption_script_entry (argv : List String) : Option CliExit :=
  if argv.length < 2 then some { code := 1, payload := .jsonWithSuccess false }
  else none

/-- `insta_media_downloader.py` lines 153–160: with `sys.argv` shorter
than 3, print a `{"success": false, ...}` usage JSON and `sys.exit(1)`;
otherwise proceed. -/
def downloader_script_entry (argv : List String) : Option CliExit :=
  if argv.length < 3 then some { code := 1, payload := .jsonWithSuccess false }
  else none

/-- The positional arguments `argparse` sees for the parser of
`vosk_transcribe.py` lines 191–196: each recognized `--model`/`--output`
option consumes one following value; everything else is positional. -/
def argparsePositionals : List String → List String
  | [] => []
  | a :: rest =>
    if a.startsWith "--" then
      match rest with
      | [] => []
      | _ :: rest2 => argparsePositionals rest2
    else a :: argparsePositionals rest

/-- `vosk_transcribe.py` lines 190–198.  The parser declares the
required positional `audio_path`; `argparse.parse_args` (standard
library) on a missing required argument prints a usage message to
stderr and calls `sys.exit(2)` — no JSON reaches stdout.  With the
argument present (`none`) the script proceeds to `transcribe_audio`. -/
def vosk_script_entry (argv : List String) : Option CliExit :=
  if (argparsePositionals (argv.drop 1)).isEmpty then
    some { code := 2, payload := .usageTextNoJson }
  else none

/-- C4 counterexample: the transcription script invoked with no
arguments exits with argparse's code 2 and puts no JSON on stdout — not
exit code 1 with a `"success": false` JSON body as the claim states. -/
theorem vosk_missing_args_counterexample :
    vosk_script_entry ["vosk_transcribe.py"] =
      some { code := 2, payload := .usageTextNoJson } ∧
    (2 : Nat) ≠ 1 ∧
    StdoutPayload.usageTextNoJson ≠ .jsonWithSuccess false := by
  refine ⟨rfl, by decide, by decide⟩

/-- C4 amended: missing required CLI arguments yield exit code 1 and a
JSON body with `"success": false` for the caption-fetch and
media-download scripts; the transcription script instead exits through
argparse with code 2 and emits no JSON. -/
theorem missing_args_exit_behavior (a1 a2 a3 : List String)
    (h1 : a1.length < 2) (h2 : a2.length < 3)
    (h3 : argparsePositionals (a3.drop 1) = []) :
    caption_script_entry a1 = some { code := 1, payload := .jsonWithSuccess false } ∧
    downloader_script_entry a2 = some { code := 1, payload := .jsonWithSuccess false } ∧
    vosk_script_entry a3 = some { code := 2, payload := .usageTextNoJson } := by
  refine ⟨?_, ?_, ?_⟩
  · unfold caption_script_entry
    rw [if_pos h1]
  · unfold downloader_script_entry
    rw [if_pos h2]
  · unfold vosk_script_entry
    rw [h3]
    rfl

theorem missing_args_exit_behavior_witness :
    (["insta_caption_extractor.py"].length < 2 ∧
     ["insta_media_downloader.py", "https://instagram.com/reel/ABC123/"].length < 3 ∧
     argparsePositionals (["vosk_transcribe.py"].drop 1) = []) ∧
    (caption_script_entry ["insta_caption_extractor.py"] =
       some { code := 1, payload := .jsonWithSuccess false } ∧
     downloader_script_entry
       ["insta_media_downloader.py", "https://instagram.com/reel/ABC123/"] =
       some { code := 1, payload := .jsonWithSuccess false } ∧
     vosk_script_entry ["vosk_transcribe.py"] =
       some { code := 2, payload := .usageTextNoJson }) :=
  ⟨⟨by decide, by decide, rfl⟩,
   missing_args_exit_behavior ["insta_caption_extractor.py"]
     ["insta_media_downloader.py", "https://instagram.com/reel/ABC123/"]
     ["vosk_transcribe.py"] (by decide) (by decide) rfl⟩

end Reels2Transcript
